import Mathlib

set_option linter.unusedVariables false

/-!
Verification of the control-loop driver and safety-gated dosing policy in
`src/simulator/run_simulation.py`.

Scalars (glucose readings, meal sizes, insulin amounts, rewards) are embedded
as rationals `ℚ`; the Python floats `0.05`, `1.0`, `70` are exact in ℚ.
The external simulation engine (simglucose) is not part of the repository's
source: it is modelled as an opaque collaborator `Environment σ` exposing the
`reset`/`step` interface the driver calls, with per-step metadata (`info`)
queryable for an optional meal and an optional time label, exactly as the
driver uses it.  The driver's loop is embedded line by line from
`run_headless_sim`, parameterised over the environment and the step budget
(hard-coded to the concrete simglucose environment and 1440 in the source).
-/

namespace Sim

/-- The observation value the environment returns each step; the source only
ever reads its `CGM` attribute (`bg = observation.CGM`). -/
structure Observation where
  CGM : ℚ
deriving DecidableEq

/-- The controller's output, `Action(basal=..., bolus=...)` from
`simglucose.controller.base`. -/
structure Action where
  basal : ℚ
  bolus : ℚ
deriving DecidableEq

/-- Per-step metadata dictionary `info`.  The driver queries it only with
`info.get('meal', 0)` and `info.get('time', step)`; absent keys are `none`.
The time label's concrete type (a datetime in the source) is opaque to the
driver, so it is embedded as a rational label. -/
structure Info where
  meal : Option ℚ
  time : Option ℚ
deriving DecidableEq

/-- `SafetyBasalController.__init__` stores `init_state`; the policy never
reads it. -/
structure SafetyBasalController where
  init_state : ℚ
deriving DecidableEq

/-- `SafetyBasalController.policy(self, observation, reward, done, **kwargs)`:

    bg = observation.CGM
    meal = kwargs.get('meal', 0)
    action_basal = 0.05
    action_bolus = 0.0
    if meal > 0: action_bolus = 1.0
    if bg < 70: action_basal = 0.0
    return Action(basal=action_basal, bolus=action_bolus)

`meal_kwarg = none` embeds a call without the `meal` keyword argument; the
float literals 0.05, 0.0, 1.0 are the exact rationals 5/100, 0, 1.
The `print` calls are console output only and are not modelled. -/
def SafetyBasalController.policy (self : SafetyBasalController) (observation : Observation)
    (reward : ℚ) (done : Bool) (meal_kwarg : Option ℚ) : Action :=
  let bg := observation.CGM
  let meal := meal_kwarg.getD 0
  let action_basal : ℚ := 5 / 100
  let action_bolus : ℚ := 0
  let action_bolus := if meal > 0 then 1 else action_bolus
  let action_basal := if bg < 70 then 0 else action_basal
  { basal := action_basal, bolus := action_bolus }

/-- The controller instance the driver builds:
`SafetyBasalController(init_state=0)`. -/
def ctrl : SafetyBasalController := { init_state := 0 }

/-- The 4-tuple `obs, reward, done, info` returned by `env.reset()` and
`env.step(action)`, together with the environment's next hidden state `σ`
(the Python environment mutates itself; the embedding passes the state
explicitly). -/
structure StepOut (σ : Type) where
  state : σ
  obs : Observation
  reward : ℚ
  done : Bool
  info : Info
deriving DecidableEq

/-- The opaque environment collaborator (`T1DSimEnv` in the source, external
to the repository): a `reset` outcome and a deterministic `step` function on
the hidden state. -/
structure Environment (σ : Type) where
  reset : StepOut σ
  step : σ → Action → StepOut σ

/-- The loop-carried variables `obs, reward, done, info` (plus the hidden
environment state) at the top of an iteration of the driver's `for` loop. -/
structure LoopState (σ : Type) where
  state : σ
  obs : Observation
  reward : ℚ
  done : Bool
  info : Info
deriving DecidableEq

/-- Repackage a `reset`/`step` outcome as the next loop-carried state. -/
def LoopState.ofStepOut {σ : Type} (o : StepOut σ) : LoopState σ :=
  { state := o.state, obs := o.obs, reward := o.reward, done := o.done, info := o.info }

/-- One iteration's body up to the `records.append`:

    meal = info.get('meal', 0)
    action = controller.policy(obs, reward, done, meal=meal)
    obs, reward, done, info = env.step(action)

Returns the action taken and the environment's output. -/
def loopIter {σ : Type} (env : Environment σ) (controller : SafetyBasalController)
    (ls : LoopState σ) : Action × StepOut σ :=
  let meal := ls.info.meal.getD 0
  let action := controller.policy ls.obs ls.reward ls.done (some meal)
  (action, env.step ls.state action)

/-- The time tag stored in a record: `info.get('time', step)` yields the
environment-reported time when present, otherwise the loop index. -/
inductive TimeTag where
  | envTime (t : ℚ)
  | loopIndex (n : Nat)
deriving DecidableEq

/-- One row of `records`, the dictionary appended each iteration (keys in
source order). -/
structure StepRecord where
  Time : TimeTag
  CGM : ℚ
  Meal : ℚ
  Insulin_Basal : ℚ
  Insulin_Bolus : ℚ
deriving DecidableEq

/-- The dictionary appended by `records.append({...})` for loop index
`stepIdx`, action `action` and post-step environment output `out`:

    {'Time': info.get('time', step), 'CGM': obs.CGM,
     'Meal': info.get('meal', 0),
     'Insulin_Basal': action.basal, 'Insulin_Bolus': action.bolus}

where `obs` and `info` have already been reassigned by `env.step`. -/
def mkRecord {σ : Type} (stepIdx : Nat) (action : Action) (out : StepOut σ) : StepRecord :=
  { Time := match out.info.time with
      | some t => TimeTag.envTime t
      | none => TimeTag.loopIndex stepIdx,
    CGM := out.obs.CGM,
    Meal := out.info.meal.getD 0,
    Insulin_Basal := action.basal,
    Insulin_Bolus := action.bolus }

/-- `for step in range(sim_steps): ... if done: break`, as structural
recursion on the remaining iteration count (`fuel`), carrying the loop index
`stepIdx` and the loop state.  Note the source checks `done` only *after*
stepping and appending, never at the top of an iteration. -/
def simLoop {σ : Type} (env : Environment σ) (controller : SafetyBasalController) :
    Nat → Nat → LoopState σ → List StepRecord
  | 0, _, _ => []
  | fuel + 1, stepIdx, ls =>
    let pr := loopIter env controller ls
    mkRecord stepIdx pr.1 pr.2 ::
      (if pr.2.done then []
       else simLoop env controller fuel (stepIdx + 1) (LoopState.ofStepOut pr.2))

/-- A cell of the tabular output: the implicit pandas row index, a time
label, or a numeric value. -/
inductive Cell where
  | idx (n : Nat)
  | time (t : TimeTag)
  | rat (q : ℚ)
deriving DecidableEq

/-- The tabular output `results.to_csv(...)`: one header row, then data
rows. -/
structure CsvTable where
  header : List String
  rows : List (List Cell)
deriving DecidableEq

/-- The data row pandas writes for the record at row index `i`: the implicit
leading index cell, then the five fields in dictionary-key order. -/
def recordRow (i : Nat) (r : StepRecord) : List Cell :=
  [Cell.idx i, Cell.time r.Time, Cell.rat r.CGM, Cell.rat r.Meal,
   Cell.rat r.Insulin_Basal, Cell.rat r.Insulin_Bolus]

/-- `pd.DataFrame(records).to_csv('sim_results_summary.csv')`: pandas keeps
the dictionaries' insertion order as column order, writes one header row
(with an empty label above the implicit index column, to_csv default
`index=True`) and one row per record. -/
def to_csv (records : List StepRecord) : CsvTable :=
  { header := ["", "Time", "CGM", "Meal", "Insulin_Basal", "Insulin_Bolus"],
    rows := records.enum.map fun p => recordRow p.1 p.2 }

/-- The failure the driver hits with zero records: `results['CGM']` on an
empty DataFrame raises (an empty frame has no `CGM` column), before any
statistic is computed and before `to_csv` runs.  The spec names this
condition `EmptyResult`. -/
inductive SimError where
  | EmptyResult
deriving DecidableEq

/-- Everything a successful run produces: the record sequence, the three
reported statistics over the `CGM` column, and the tabular file contents. -/
structure SimulationResult where
  records : List StepRecord
  mean_bg : ℚ
  min_bg : ℚ
  max_bg : ℚ
  csv : CsvTable
deriving DecidableEq

/-- `run_headless_sim`, parameterised over the environment and the step
budget (the source hard-codes the external simglucose environment and
`sim_steps = 1440`):

    obs, reward, done, info = env.reset()
    records = []
    for step in range(sim_steps): ...            -- `simLoop`
    results = pd.DataFrame(records)
    mean_bg = results['CGM'].mean()              -- raises on empty frame
    min_bg = results['CGM'].min()
    max_bg = results['CGM'].max()
    results.to_csv('sim_results_summary.csv')

On zero records the column access fails, so no statistic is computed and no
file is written: the run aborts with `SimError.EmptyResult`. -/
def run_headless_sim {σ : Type} (env : Environment σ) (controller : SafetyBasalController)
    (sim_steps : Nat) : Except SimError SimulationResult :=
  let r0 := env.reset
  let records := simLoop env controller sim_steps 0 (LoopState.ofStepOut r0)
  match records with
  | [] => Except.error SimError.EmptyResult
  | r :: rs =>
    let cgms := (r :: rs).map StepRecord.CGM
    Except.ok
      { records := r :: rs,
        mean_bg := cgms.sum / cgms.length,
        min_bg := rs.foldl (fun acc x => min acc x.CGM) r.CGM,
        max_bg := rs.foldl (fun acc x => max acc x.CGM) r.CGM,
        csv := to_csv (r :: rs) }

/-- The loop-carried state at the top of iteration `i`, obtained by pure
iteration of the loop body from `ls` (ignoring the `break`): the reference
point against which the produced records are compared. -/
def loopCarry {σ : Type} (env : Environment σ) (controller : SafetyBasalController)
    (ls : LoopState σ) : Nat → LoopState σ
  | 0 => ls
  | i + 1 => LoopState.ofStepOut (loopIter env controller (loopCarry env controller ls i)).2

/-- The `done` flag the environment reports at iteration `i` (counted from
`ls`), i.e. the flag the `if done: break` inspects after that iteration. -/
def stepDone {σ : Type} (env : Environment σ) (controller : SafetyBasalController)
    (ls : LoopState σ) (i : Nat) : Bool :=
  (loopIter env controller (loopCarry env controller ls i)).2.done

/-- The number of records a run produced, `none` when the run aborted. -/
def runRecordCount {σ : Type} (env : Environment σ) (controller : SafetyBasalController)
    (sim_steps : Nat) : Option Nat :=
  match run_headless_sim env controller sim_steps with
  | Except.ok r => some r.records.length
  | Except.error _ => none


/-- The initial loop state, built from `env.reset()`. -/
def initLS {σ : Type} (env : Environment σ) : LoopState σ :=
  LoopState.ofStepOut env.reset

/-- A concrete environment whose `reset` already signals termination
(`done = true`), and whose `step` also terminates. -/
def envResetDone : Environment Unit :=
  { reset := { state := (), obs := { CGM := 100 }, reward := 0, done := true,
               info := { meal := none, time := none } },
    step := fun _ _ =>
      { state := (), obs := { CGM := 90 }, reward := 0, done := true,
        info := { meal := none, time := none } } }

/-- A concrete environment on which the pre-action and post-action
observation/disturbance differ: `reset` reports glucose 100 with a 5 g meal,
the (single) step reports glucose 200 with no meal and terminates. -/
def envPrePost : Environment Unit :=
  { reset := { state := (), obs := { CGM := 100 }, reward := 0, done := false,
               info := { meal := some 5, time := none } },
    step := fun _ _ =>
      { state := (), obs := { CGM := 200 }, reward := 0, done := true,
        info := { meal := some 0, time := none } } }

/-- A concrete environment that never signals termination: constant glucose
100, no meals, no time labels. -/
def envNever : Environment Unit :=
  { reset := { state := (), obs := { CGM := 100 }, reward := 0, done := false,
               info := { meal := none, time := none } },
    step := fun _ _ =>
      { state := (), obs := { CGM := 100 }, reward := 0, done := false,
        info := { meal := none, time := none } } }

/-- The record every iteration against `envNever` produces: no meal, no env
time label, glucose 100, so baseline 0.05 and bolus 0, tagged with the loop
index. -/
def recNever (i : Nat) : StepRecord :=
  { Time := TimeTag.loopIndex i, CGM := 100, Meal := 0,
    Insulin_Basal := 5 / 100, Insulin_Bolus := 0 }

/-- The concrete result of running the driver for 2 steps against
`envNever`: two records, all statistics 100. -/
def resNever2 : SimulationResult :=
  { records := [recNever 0, recNever 1],
    mean_bg := 100, min_bg := 100, max_bg := 100,
    csv := to_csv [recNever 0, recNever 1] }



/-- Shifting the iteration reference point: the loop state `j + 1` iterations
after `ls` equals the state `j` iterations after the first iteration's
output. -/
theorem loopCarry_shift {σ : Type} (env : Environment σ) (controller : SafetyBasalController)
    (ls : LoopState σ) (j : Nat) :
    loopCarry env controller ls (j + 1) =
      loopCarry env controller (LoopState.ofStepOut (loopIter env controller ls).2) j := by
  induction j with
  | zero => rfl
  | succ j ih =>
    have hj : loopCarry env controller ls (j + 1 + 1) =
        LoopState.ofStepOut (loopIter env controller (loopCarry env controller ls (j + 1))).2 :=
      rfl
    rw [hj, ih]
    rfl

/-- The termination flag of iteration `j + 1` from `ls` is that of iteration
`j` from the first iteration's output. -/
theorem stepDone_shift {σ : Type} (env : Environment σ) (controller : SafetyBasalController)
    (ls : LoopState σ) (j : Nat) :
    stepDone env controller ls (j + 1) =
      stepDone env controller (LoopState.ofStepOut (loopIter env controller ls).2) j := by
  simp only [stepDone, loopCarry_shift]

/-- Content of the `i`-th produced record: as long as no earlier iteration
saw the termination flag and the budget has not run out, record `i` is built
from the action of iteration `i` and the environment output of iteration
`i`. -/
theorem simLoop_get_aux {σ : Type} (env : Environment σ) (controller : SafetyBasalController) :
    ∀ (i fuel stepIdx : Nat) (ls : LoopState σ), i < fuel →
      (∀ j, j < i → stepDone env controller ls j = false) →
      (simLoop env controller fuel stepIdx ls).get? i =
        some (mkRecord (stepIdx + i)
          (loopIter env controller (loopCarry env controller ls i)).1
          (loopIter env controller (loopCarry env controller ls i)).2) := by
  intro i
  induction i with
  | zero =>
    intro fuel stepIdx ls hfuel _
    match fuel, hfuel with
    | fuel + 1, _ => simp [simLoop, loopCarry]
  | succ i ih =>
    intro fuel stepIdx ls hfuel hnd
    match fuel, hfuel with
    | fuel + 1, hfuel =>
      have h0 : (loopIter env controller ls).2.done = false := by
        simpa [stepDone, loopCarry] using hnd 0 (Nat.succ_pos i)
      have hrest : ∀ j, j < i →
          stepDone env controller (LoopState.ofStepOut (loopIter env controller ls).2) j
            = false := by
        intro j hj
        have h := hnd (j + 1) (Nat.succ_lt_succ hj)
        rwa [stepDone_shift] at h
      have hstep : simLoop env controller (fuel + 1) stepIdx ls =
          mkRecord stepIdx (loopIter env controller ls).1 (loopIter env controller ls).2 ::
            simLoop env controller fuel (stepIdx + 1)
              (LoopState.ofStepOut (loopIter env controller ls).2) := by
        simp [simLoop, h0]
      rw [show stepIdx + (i + 1) = stepIdx + 1 + i by omega, loopCarry_shift, hstep,
        List.get?_cons_succ]
      exact ih fuel (stepIdx + 1) _ (Nat.lt_of_succ_lt_succ hfuel) hrest

/-- The loop never produces more records than its budget. -/
theorem simLoop_length_le {σ : Type} (env : Environment σ) (controller : SafetyBasalController) :
    ∀ (fuel stepIdx : Nat) (ls : LoopState σ),
      (simLoop env controller fuel stepIdx ls).length ≤ fuel := by
  intro fuel
  induction fuel with
  | zero => intro stepIdx ls; simp [simLoop]
  | succ fuel ih =>
    intro stepIdx ls
    by_cases h : (loopIter env controller ls).2.done
    · simp [simLoop, h]
    · have hle := ih (stepIdx + 1) (LoopState.ofStepOut (loopIter env controller ls).2)
      simp only [simLoop, h, if_false, List.length_cons, Bool.false_eq_true]
      omega

/-- Against an environment that never reports termination, the loop runs its
full budget. -/
theorem simLoop_length_neverDone {σ : Type} (env : Environment σ)
    (controller : SafetyBasalController)
    (hnd : ∀ (s : σ) (a : Action), (env.step s a).done = false) :
    ∀ (fuel stepIdx : Nat) (ls : LoopState σ),
      (simLoop env controller fuel stepIdx ls).length = fuel := by
  intro fuel
  induction fuel with
  | zero => intro stepIdx ls; simp [simLoop]
  | succ fuel ih =>
    intro stepIdx ls
    have h : (loopIter env controller ls).2.done = false := by simp [loopIter, hnd]
    simp [simLoop, h, ih]

/-- If the termination flag first comes back true at iteration `k` (counted
from 0) and the budget allows reaching it, the loop stops with exactly
`k + 1` records. -/
theorem simLoop_length_firstDone {σ : Type} (env : Environment σ)
    (controller : SafetyBasalController) :
    ∀ (k fuel stepIdx : Nat) (ls : LoopState σ), k < fuel →
      (∀ j, j < k → stepDone env controller ls j = false) →
      stepDone env controller ls k = true →
      (simLoop env controller fuel stepIdx ls).length = k + 1 := by
  intro k
  induction k with
  | zero =>
    intro fuel stepIdx ls hf _ hk
    match fuel, hf with
    | fuel + 1, _ =>
      have h : (loopIter env controller ls).2.done = true := by
        simpa [stepDone, loopCarry] using hk
      simp [simLoop, h]
  | succ k ih =>
    intro fuel stepIdx ls hf hbefore hk
    match fuel, hf with
    | fuel + 1, hf =>
      have h0 : (loopIter env controller ls).2.done = false := by
        simpa [stepDone, loopCarry] using hbefore 0 (Nat.succ_pos k)
      have hb : ∀ j, j < k →
          stepDone env controller (LoopState.ofStepOut (loopIter env controller ls).2) j
            = false := by
        intro j hj
        have h := hbefore (j + 1) (Nat.succ_lt_succ hj)
        rwa [stepDone_shift] at h
      have hk' :
          stepDone env controller (LoopState.ofStepOut (loopIter env controller ls).2) k
            = true := by
        rwa [stepDone_shift] at hk
      have hrec := ih fuel (stepIdx + 1) (LoopState.ofStepOut (loopIter env controller ls).2)
        (Nat.lt_of_succ_lt_succ hf) hb hk'
      simp [simLoop, h0, hrec]

/-- With a positive budget the loop yields at least one record, and the run
reports that many records. -/
theorem runRecordCount_pos {σ : Type} (env : Environment σ)
    (controller : SafetyBasalController) (n : Nat) (hn : n ≠ 0) :
    runRecordCount env controller n =
      some (simLoop env controller n 0 (LoopState.ofStepOut env.reset)).length := by
  match n, hn with
  | n + 1, _ =>
    cases hc : simLoop env controller (n + 1) 0 (LoopState.ofStepOut env.reset) with
    | nil => exact absurd hc (by simp [simLoop])
    | cons a t => simp only [runRecordCount, run_headless_sim, hc]


/-- C3: for every observation below the low threshold 70 the reference
policy's baseline output is exactly 0, regardless of the disturbance (and of
reward/done); for every observation at or above 70 it equals the configured
baseline constant 0.05 = 5/100. -/
theorem policy_basal_threshold (c : SafetyBasalController) (observation : Observation)
    (reward : ℚ) (done : Bool) (meal_kwarg : Option ℚ) :
    (observation.CGM < 70 →
      (c.policy observation reward done meal_kwarg).basal = 0) ∧
    (70 ≤ observation.CGM →
      (c.policy observation reward done meal_kwarg).basal = 5 / 100) := by
  constructor
  · intro h
    simp [SafetyBasalController.policy, h]
  · intro h
    simp [SafetyBasalController.policy, not_lt.mpr h]

/-- C3 witness: glucose 65 (below threshold, with a meal) suspends the
baseline; glucose 120 keeps the 0.05 baseline. -/
theorem policy_basal_threshold_spot :
    (ctrl.policy { CGM := 65 } 0 false (some 30)).basal = 0 ∧
    (ctrl.policy { CGM := 120 } 0 false (some 30)).basal = 5 / 100 :=
  ⟨(policy_basal_threshold ctrl { CGM := 65 } 0 false (some 30)).1 (by norm_num),
   (policy_basal_threshold ctrl { CGM := 120 } 0 false (some 30)).2 (by norm_num)⟩

/-- C4: for every positive disturbance the policy's bolus output equals the
configured bolus constant 1.0, and for disturbance 0 it is exactly 0, in
both cases independently of the observation (in particular of whether the
observation is below the suspension threshold). -/
theorem policy_bolus_meal (c : SafetyBasalController) (observation : Observation)
    (reward : ℚ) (done : Bool) (m : ℚ) :
    (0 < m → (c.policy observation reward done (some m)).bolus = 1) ∧
    (m = 0 → (c.policy observation reward done (some m)).bolus = 0) := by
  constructor
  · intro h
    simp [SafetyBasalController.policy, h]
  · intro h
    simp [SafetyBasalController.policy, h]

/-- C4 witness: a 30 g meal triggers the 1.0 U bolus even below the
threshold; no meal gives no bolus even above it. -/
theorem policy_bolus_meal_spot :
    (ctrl.policy { CGM := 60 } 0 false (some 30)).bolus = 1 ∧
    (ctrl.policy { CGM := 120 } 0 false (some 0)).bolus = 0 :=
  ⟨(policy_bolus_meal ctrl { CGM := 60 } 0 false 30).1 (by norm_num),
   (policy_bolus_meal ctrl { CGM := 120 } 0 false 0).2 rfl⟩

/-- C6 counterexample: a negative disturbance (meal = -5 g), outside the
allowed domain, is passed to the controller and no error of any kind is
raised: the policy is a total function and returns the ordinary action
(basal 0.05, bolus 0), exactly as for meal = 0.  The source contains no
validation and no ValidationError; the invalid input is silently
accepted. -/
theorem policy_no_validation_cex :
    ctrl.policy { CGM := 100 } 0 false (some (-5)) = { basal := 5 / 100, bolus := 0 } ∧
    ctrl.policy { CGM := 100 } 0 false (some (-5)) =
      ctrl.policy { CGM := 100 } 0 false (some 0) :=
  ⟨rfl, rfl⟩

/-- C6 (amended): the controller performs no input validation: a disturbance
outside the allowed domain (negative) is silently accepted and handled
identically to disturbance 0 — no ValidationError is raised and the run is
not aborted. -/
theorem policy_negative_meal_accepted (c : SafetyBasalController) (observation : Observation)
    (reward : ℚ) (done : Bool) (m : ℚ) (hm : m ≤ 0) :
    c.policy observation reward done (some m) =
      c.policy observation reward done (some 0) := by
  simp [SafetyBasalController.policy, not_lt.mpr hm]

/-- C6 amended witness: meal -5 behaves as meal 0. -/
theorem policy_negative_meal_accepted_spot :
    ctrl.policy { CGM := 100 } 0 false (some (-5)) =
      ctrl.policy { CGM := 100 } 0 false (some 0) :=
  policy_negative_meal_accepted ctrl { CGM := 100 } 0 false (-5) (by norm_num)

/-- C7: for every (finite) observation and every disturbance ≥ 0 both fields
of the returned Action are nonnegative.  (Every rational is finite, so the
finiteness side condition is vacuous in this embedding.) -/
theorem policy_action_nonneg (c : SafetyBasalController) (observation : Observation)
    (reward : ℚ) (done : Bool) (m : ℚ) (hm : 0 ≤ m) :
    0 ≤ (c.policy observation reward done (some m)).basal ∧
    0 ≤ (c.policy observation reward done (some m)).bolus := by
  unfold SafetyBasalController.policy
  constructor <;> dsimp only <;> split <;> norm_num

/-- C7 witness: at glucose 80 with a 10 g meal both action fields are
nonnegative. -/
theorem policy_action_nonneg_spot :
    0 ≤ (ctrl.policy { CGM := 80 } 0 false (some 10)).basal ∧
    0 ≤ (ctrl.policy { CGM := 80 } 0 false (some 10)).bolus :=
  policy_action_nonneg ctrl { CGM := 80 } 0 false 10 (by norm_num)

/-- C8: the reference policy is stateless and deterministic: two calls with
equal observation and equal disturbance return equal Actions, whatever the
two controllers' stored `init_state`, the reward and done arguments, and
(since the policy is a pure function of its arguments) the call history. -/
theorem policy_stateless_deterministic (c₁ c₂ : SafetyBasalController)
    (observation : Observation) (reward₁ reward₂ : ℚ) (done₁ done₂ : Bool)
    (meal_kwarg : Option ℚ) :
    c₁.policy observation reward₁ done₁ meal_kwarg =
      c₂.policy observation reward₂ done₂ meal_kwarg := rfl

/-- C10: the reference policy is total over all rational inputs — it is a
Lean function, returning an Action for every observation and every
disturbance, negative ones included — and for every disturbance ≤ 0 the
bolus output is exactly 0, a negative disturbance being handled identically
to 0 rather than rejected. -/
theorem policy_bolus_zero_nonpos (c : SafetyBasalController) (observation : Observation)
    (reward : ℚ) (done : Bool) (m : ℚ) (hm : m ≤ 0) :
    (c.policy observation reward done (some m)).bolus = 0 ∧
    c.policy observation reward done (some m) =
      c.policy observation reward done (some 0) := by
  constructor
  · simp [SafetyBasalController.policy, not_lt.mpr hm]
  · simp [SafetyBasalController.policy, not_lt.mpr hm]

/-- C10 witness: disturbance -3 yields bolus 0 and the same action as
disturbance 0. -/
theorem policy_bolus_zero_nonpos_spot :
    (ctrl.policy { CGM := 100 } 0 false (some (-3))).bolus = 0 ∧
    ctrl.policy { CGM := 100 } 0 false (some (-3)) =
      ctrl.policy { CGM := 100 } 0 false (some 0) :=
  policy_bolus_zero_nonpos ctrl { CGM := 100 } 0 false (-3) (by norm_num)


/-- C1 counterexample: on `envPrePost` the observation/disturbance passed to
the controller (the pre-action values) are glucose 100 and meal 5 — the
action's bolus 1 in the record shows the controller saw that meal — yet the
appended StepRecord carries CGM 200 and Meal 0, the values `env.step`
returned *after* the action.  The record does not contain the pre-action
observation or disturbance, refuting the claim at this input. -/
theorem record_post_observation_cex :
    (simLoop envPrePost ctrl 1440 0 (initLS envPrePost)).get? 0 =
      some { Time := TimeTag.loopIndex 0, CGM := 200, Meal := 0,
             Insulin_Basal := 5 / 100, Insulin_Bolus := 1 } ∧
    envPrePost.reset.obs.CGM = 100 ∧
    envPrePost.reset.info.meal = some 5 :=
  ⟨rfl, rfl, rfl⟩

/-- C1 (amended): the StepRecord appended at iteration `i` (reached when no
earlier iteration saw the termination flag) contains the *post-action*
observation and disturbance — the ones `env.step` returns at that iteration
— together with the action just taken (computed from the pre-action
observation/disturbance), tagged with the time reported by the environment
after the step, or the loop index if the environment supplies none. -/
theorem record_content {σ : Type} (env : Environment σ) (controller : SafetyBasalController)
    (sim_steps i : Nat) (hi : i < sim_steps)
    (hnb : ∀ j, j < i → stepDone env controller (initLS env) j = false) :
    (simLoop env controller sim_steps 0 (initLS env)).get? i =
      (let pre := loopCarry env controller (initLS env) i
       let action := controller.policy pre.obs pre.reward pre.done (some (pre.info.meal.getD 0))
       let out := env.step pre.state action
       some { Time := match out.info.time with
                | some t => TimeTag.envTime t
                | none => TimeTag.loopIndex i,
              CGM := out.obs.CGM,
              Meal := out.info.meal.getD 0,
              Insulin_Basal := action.basal,
              Insulin_Bolus := action.bolus }) := by
  have h := simLoop_get_aux env controller i sim_steps 0 (initLS env) hi hnb
  simpa [mkRecord, loopIter] using h

/-- C1 amended witness: the first record on `envPrePost` is exactly the one
built from the post-step environment output and the pre-step action. -/
theorem record_content_spot :
    (simLoop envPrePost ctrl 1 0 (initLS envPrePost)).get? 0 =
      (let pre := loopCarry envPrePost ctrl (initLS envPrePost) 0
       let action := ctrl.policy pre.obs pre.reward pre.done (some (pre.info.meal.getD 0))
       let out := envPrePost.step pre.state action
       some { Time := match out.info.time with
                | some t => TimeTag.envTime t
                | none => TimeTag.loopIndex 0,
              CGM := out.obs.CGM,
              Meal := out.info.meal.getD 0,
              Insulin_Basal := action.basal,
              Insulin_Bolus := action.bolus }) :=
  record_content envPrePost ctrl 1 0 (by omega) (fun j hj => absurd hj (Nat.not_lt_zero j))

/-- C2 counterexample: an environment whose reset immediately signals
termination does not lead to zero records: the source checks `done` only
after stepping and appending, so the run still records one step and
succeeds — it neither raises EmptyResult nor skips the output. -/
theorem reset_done_still_records_cex :
    runRecordCount envResetDone ctrl 1440 = some 1 ∧
    run_headless_sim envResetDone ctrl 1440 ≠ Except.error SimError.EmptyResult := by
  refine ⟨by decide, fun hcontra => ?_⟩
  have h2 : runRecordCount envResetDone ctrl 1440 = none := by
    simp [runRecordCount, hcontra]
  have h1 : runRecordCount envResetDone ctrl 1440 = some 1 := by decide
  rw [h1] at h2
  exact Option.noConfusion h2

/-- C2 (amended): the driver fails with EmptyResult — producing no
statistics and no output file — exactly when zero steps were recorded,
which happens precisely when the step budget is zero; an environment whose
reset immediately signals termination still records one step (the flag is
checked only after stepping), so it does not trigger EmptyResult. -/
theorem run_empty_result_iff {σ : Type} (env : Environment σ)
    (controller : SafetyBasalController) (sim_steps : Nat) :
    run_headless_sim env controller sim_steps = Except.error SimError.EmptyResult ↔
      sim_steps = 0 := by
  cases sim_steps with
  | zero => simp [run_headless_sim, simLoop]
  | succ n =>
    cases hc : simLoop env controller (n + 1) 0 (LoopState.ofStepOut env.reset) with
    | nil => exact absurd hc (by simp [simLoop])
    | cons a t => simp [run_headless_sim, hc]

/-- C5: (1) against an environment that never signals termination the loop
with budget N produces exactly N records, the i-th being the record of step
i (so the sequence is in chronological order matching the step index);
(2) against an environment first signalling termination at step k (1-based,
k ≤ N) it produces exactly k records; (3) the record count never exceeds
the budget. -/
theorem simLoop_record_count {σ : Type} (env : Environment σ)
    (controller : SafetyBasalController) (sim_steps k : Nat) (ls : LoopState σ) :
    ((∀ (s : σ) (a : Action), (env.step s a).done = false) →
      (simLoop env controller sim_steps 0 ls).length = sim_steps ∧
      ∀ i, i < sim_steps →
        (simLoop env controller sim_steps 0 ls).get? i =
          some (mkRecord i (loopIter env controller (loopCarry env controller ls i)).1
            (loopIter env controller (loopCarry env controller ls i)).2)) ∧
    (0 < k → k ≤ sim_steps →
      (∀ j, j + 1 < k → stepDone env controller ls j = false) →
      stepDone env controller ls (k - 1) = true →
      (simLoop env controller sim_steps 0 ls).length = k) ∧
    (simLoop env controller sim_steps 0 ls).length ≤ sim_steps := by
  refine ⟨fun hnd => ⟨simLoop_length_neverDone env controller hnd sim_steps 0 ls, ?_⟩,
    fun hk hkN hbefore hat => ?_, simLoop_length_le env controller sim_steps 0 ls⟩
  · intro i hi
    have hz : ∀ j, j < i → stepDone env controller ls j = false := by
      intro j hj
      simp [stepDone, loopIter, hnd]
    have h := simLoop_get_aux env controller i sim_steps 0 ls hi hz
    simpa using h
  · have hk1 : k - 1 < sim_steps := by omega
    have hb : ∀ j, j < k - 1 → stepDone env controller ls j = false := by
      intro j hj
      exact hbefore j (by omega)
    have h := simLoop_length_firstDone env controller (k - 1) sim_steps 0 ls hk1 hb hat
    omega

/-- C5 witness: with budget 3 the never-terminating environment yields 3
records; with budget 5 an environment that terminates on its first step
call yields 1 record. -/
theorem simLoop_record_count_spot :
    (simLoop envNever ctrl 3 0 (initLS envNever)).length = 3 ∧
    (simLoop envResetDone ctrl 5 0 (initLS envResetDone)).length = 1 := by
  refine ⟨((simLoop_record_count envNever ctrl 3 1 (initLS envNever)).1 (fun s a => rfl)).1, ?_⟩
  exact (simLoop_record_count envResetDone ctrl 5 1 (initLS envResetDone)).2.1
    (by omega) (by omega) (fun j hj => absurd hj (by omega)) rfl

/-- The table built by `to_csv` has one row per record. -/
theorem to_csv_rows_length (records : List StepRecord) :
    (to_csv records).rows.length = records.length := by
  simp [to_csv]

/-- The `i`-th row of the table is the row of the `i`-th record, at row
index `i`. -/
theorem to_csv_rows_get (records : List StepRecord) (i : Nat) :
    (to_csv records).rows.get? i = (records.get? i).map (recordRow i) := by
  simp only [to_csv, List.get?_map, List.get?_enum]
  cases records.get? i <;> rfl

/-- C9: a successful run's tabular output has exactly one row per
StepRecord — the i-th row being the i-th record's data preceded by the
implicit row index — under the header naming the columns Time, CGM, Meal,
Insulin_Basal, Insulin_Bolus in that order (after the implicit leading
index column). -/
theorem run_csv_shape {σ : Type} (env : Environment σ) (controller : SafetyBasalController)
    (sim_steps : Nat) (r : SimulationResult)
    (hr : run_headless_sim env controller sim_steps = Except.ok r) :
    r.csv.header = ["", "Time", "CGM", "Meal", "Insulin_Basal", "Insulin_Bolus"] ∧
    r.csv.rows.length = r.records.length ∧
    ∀ i, r.csv.rows.get? i = (r.records.get? i).map (recordRow i) := by
  simp only [run_headless_sim] at hr
  cases hc : simLoop env controller sim_steps 0 (LoopState.ofStepOut env.reset) with
  | nil =>
    rw [hc] at hr
    simp at hr
  | cons a t =>
    rw [hc] at hr
    dsimp only at hr
    injection hr with h
    subst h
    exact ⟨rfl, to_csv_rows_length _, fun i => to_csv_rows_get _ i⟩

/-- C9 witness: the 2-step run against `envNever` returns `resNever2`,
whose table has the required header and one index-prefixed row per
record. -/
theorem run_csv_shape_spot :
    resNever2.csv.header = ["", "Time", "CGM", "Meal", "Insulin_Basal", "Insulin_Bolus"] ∧
    resNever2.csv.rows.length = resNever2.records.length ∧
    ∀ i, resNever2.csv.rows.get? i = (resNever2.records.get? i).map (recordRow i) :=
  run_csv_shape envNever ctrl 2 resNever2 (by
    norm_num [run_headless_sim, simLoop, loopIter, mkRecord, LoopState.ofStepOut, envNever,
      ctrl, SafetyBasalController.policy, resNever2, recNever, to_csv])

end Sim
